import Mathlib

/-!
Shallow embedding of the PTNotifier polling/session engine
(src/trackers/base.py, src/trackers/UNIT3D.py, src/ptn.py) and proofs
about the properties its specification states.

Time values (Python floats from time.time / time.monotonic) are modelled
as rationals; items (Python dicts) as a structure carrying the fields the
engine reads; notifier sinks as named functions that either return or
raise (modelled as a Bool: true means the coroutine raises).
-/

namespace PTNotifier

/-- A normalized item produced by a site adapter (the dicts built by the
parsers in src/trackers/*.py). Only the fields the engine and the
UNIT3D parsers touch are modelled. -/
structure Item where
  type : String
  id : String
  url : String
  sender : Option String := none
  title : Option String := none
  subject : Option String := none
  date : String := ""
  body : Option String := none
  deriving Repr, DecidableEq

/-- The durable per-tracker SessionState: processed_ids and last_run
(src/trackers/base.py, self.state). -/
structure SessionState where
  processed_ids : List String
  last_run : ℚ
  deriving Repr, DecidableEq

/-- BaseTracker._ack_item (src/trackers/base.py lines 113-119), acting on
the processed_ids list: append the id when absent, then keep only the
last 300 entries when the length exceeds 300 (Python slice [-300:]). -/
def ack_ids (ids : List String) (item_id : String) : List String :=
  if item_id ∈ ids then ids
  else
    if (ids ++ [item_id]).length > 300 then
      (ids ++ [item_id]).drop ((ids ++ [item_id]).length - 300)
    else ids ++ [item_id]

/-- BaseTracker._ack_item lifted to the whole SessionState. -/
def ack_item (st : SessionState) (item : Item) : SessionState :=
  { st with processed_ids := ack_ids st.processed_ids item.id }

/-- BaseTracker.get_scrape_interval (src/trackers/base.py lines 79-87):
the requested interval if it is at least the configured global
SCRAPE_INTERVAL, otherwise the configured global value. -/
def get_scrape_interval (scrape_interval config_interval : ℚ) : ℚ :=
  if scrape_interval ≥ config_interval then scrape_interval
  else config_interval

/-- A notifier sink: its configured name and its behaviour when awaited
on an item (true means the coroutine raises an exception). -/
abbrev Sink := String × (Item → Bool)

/-- The notifiers list built at the top of BaseTracker.process
(src/trackers/base.py lines 133-141): send_telegram is appended first
when TELEGRAM_BOT_TOKEN and TELEGRAM_CHAT_ID are set, then send_discord
when DISCORD_WEBHOOK_URL is set. -/
def build_notifiers (telegram_configured discord_configured : Bool) : List String :=
  (if telegram_configured then ["telegram"] else [])
    ++ (if discord_configured then ["discord"] else [])

/-- The inner `for notifier in notifiers` loop of BaseTracker.process
(src/trackers/base.py lines 148-155): awaits each sink in order on the
item; there is no try/except around the await, so the first sink that
raises propagates the exception. Returns the invocation log, each entry
a pair of sink name and item id, and whether an exception escaped. -/
def dispatch_item : List Sink → Item → List (String × String) × Bool
  | [], _ => ([], false)
  | s :: rest, item =>
    if s.2 item then ([(s.1, item.id)], true)
    else
      let r := dispatch_item rest item
      ((s.1, item.id) :: r.1, r.2)

/-- The `for item in all_items` loop of BaseTracker.process
(src/trackers/base.py lines 146-156): when first_run is false, dispatch
to every sink and then ack; when first_run is true, only ack. An
exception raised by a sink aborts the loop: the current item is not
acked and the remaining items are not visited. Returns the final
processed_ids, the invocation log and whether an exception escaped. -/
def process_items (sinks : List Sink) (first_run : Bool) :
    List String → List Item → List String × List (String × String) × Bool
  | ids, [] => (ids, [], false)
  | ids, item :: rest =>
    if first_run then
      process_items sinks first_run (ack_ids ids item.id) rest
    else
      let d := dispatch_item sinks item
      if d.2 then (ids, d.1, true)
      else
        let r := process_items sinks first_run (ack_ids ids item.id) rest
        (r.1, d.1 ++ r.2.1, r.2.2)

/-- Outcome of one BaseTracker.process call: the session state after the
cycle, the sink invocation log, and whether the outer except clause
caught an exception. -/
structure CycleResult where
  state : SessionState
  log : List (String × String)
  errorCaught : Bool
  deriving Repr, DecidableEq

/-- BaseTracker.process (src/trackers/base.py lines 143-163): fetch items
(an Except models _fetch_items raising), run the item loop, and only on
full success set last_run to the current time and persist. The outer
try/except catches any exception, so partial acks made before a failure
are kept but last_run is not advanced. -/
def process (sinks : List Sink) (first_run : Bool) (st : SessionState)
    (fetched : Except String (List Item)) (now : ℚ) : CycleResult :=
  match fetched with
  | .error _ => ⟨st, [], true⟩
  | .ok items =>
    let r := process_items sinks first_run st.processed_ids items
    if r.2.2 then ⟨⟨r.1, st.last_run⟩, r.2.1, true⟩
    else ⟨⟨r.1, now⟩, r.2.1, false⟩

/-- Outcome of one BaseTracker.fetch_notifications call: the session
state afterwards, the returned float, whether a cycle ran, and the sink
invocation log of that cycle. -/
structure FetchOutcome where
  state : SessionState
  ret : ℚ
  ran : Bool
  log : List (String × String)
  deriving Repr, DecidableEq

/-- BaseTracker.fetch_notifications (src/trackers/base.py lines 121-129):
when now - last_run >= scrape_interval, run process and return the
scrape interval; otherwise return the remaining time until due. The
clock is read once for the due check (now) and again inside process when
last_run is set (now2). -/
def fetch_notifications (sinks : List Sink) (first_run : Bool)
    (fetched : Except String (List Item)) (st : SessionState)
    (scrape_interval now now2 : ℚ) : FetchOutcome :=
  if now - st.last_run ≥ scrape_interval then
    let r := process sinks first_run st fetched now2
    ⟨r.state, scrape_interval, true, r.log⟩
  else
    ⟨st, st.last_run + scrape_interval - now, false, []⟩

/-- The condition of the state file on disk when BaseTracker is
constructed: absent, present but unreadable or missing required keys, or
valid. -/
inductive StateFile where
  | missing
  | invalid
  | valid (st : SessionState)
  deriving Repr, DecidableEq

/-- BaseTracker._load_state (src/trackers/base.py lines 89-103): returns
the loaded state together with the value _load_state leaves in
self.first_run (it sets the flag to true only in the missing-file
branch; the attribute is otherwise untouched, i.e. false). -/
def load_state : StateFile → SessionState × Bool
  | .missing => (⟨[], 0⟩, true)
  | .invalid => (⟨[], 0⟩, false)
  | .valid s => (s, false)

/-- The state/first_run fragment of BaseTracker.__init__
(src/trackers/base.py lines 46-47): line 46 runs _load_state, then line
47 executes `self.first_run = False`, unconditionally overwriting
whatever _load_state stored in the attribute. -/
def init_session (f : StateFile) : SessionState × Bool :=
  ((load_state f).1, false)

/-- The outcome of the HTTP GET inside BaseTracker._fetch_page. -/
inductive HttpOutcome where
  | success (body : String)
  | statusError (code : Nat)
  | timeout
  | requestError
  | otherError
  deriving Repr, DecidableEq

/-- BaseTracker._fetch_page (src/trackers/base.py lines 187-254), result
value only: on a successful GET the response text is returned
(valid_response is called when success_text is nonempty but its Bool is
discarded, so validation failure does not change the result); every
except branch (HTTPStatusError, TimeoutException, RequestError, broad
Exception) logs and falls through to `return ""` instead of raising,
despite the docstring announcing `:raises RequestError:`. -/
def fetch_page (outcome : HttpOutcome) (success_text : String) : String :=
  match outcome with
  | .success body => body
  | _ => ""

/-- The config parsing at the top of BaseTracker._fetch_page
(src/trackers/base.py lines 203-212): REQUEST_DELAY and TIMEOUT parsed
as floats (none models a float() failure); a negative value or a parse
failure makes both fall back to the defaults (5, 30). -/
def parse_limits (request_delay timeout_cfg : Option ℚ) : ℚ × ℚ :=
  match request_delay, timeout_cfg with
  | some d, some t => if d < 0 ∨ t < 0 then (5, 30) else (d, t)
  | _, _ => (5, 30)

/-- Python str.rstrip applied with the slash character: drop every
trailing slash. -/
def rstrip_slash (s : String) : String :=
  String.mk ((s.toList.reverse.dropWhile (fun c => c = '/')).reverse)

/-- Python str.split on the slash separator, over the character list:
"a/b" gives [a, b], "/x/5" gives the empty piece first. -/
def split_slash : List Char → List (List Char)
  | [] => [[]]
  | c :: cs =>
    let r := split_slash cs
    if c = '/' then [] :: r
    else
      match r with
      | [] => [[c]]
      | h :: t => (c :: h) :: t

/-- Python url.rstrip followed by .split on the slash taking the last
piece, as used to build item ids in src/trackers/UNIT3D.py. -/
def last_segment (s : String) : String :=
  String.mk (((split_slash (rstrip_slash s).toList).getLast?).getD [])

/-- A table row of the UNIT3D inbox page as seen by
UNIT3D._parse_messages_html after BeautifulSoup: whether the row holds
an unread icon (an i tag with class text-red), the text of its td
cells, and the href/text of the first anchor inside the second cell
(none when there is no anchor). -/
structure MsgRow where
  unread : Bool
  cols : List String
  link : Option (String × String)
  deriving Repr, DecidableEq

/-- UNIT3D._parse_messages_html (src/trackers/UNIT3D.py lines 140-174):
keep rows with an unread icon, at least 6 cells and an anchor in the
second cell; build a message item whose id is "msg_" plus the last path
segment of the anchor href. The function never consults
self.state processed_ids — but it is dead code: the only call site is
_fetch_and_parse, whose line 97 raises TypeError before any parsing
(see fetch_and_parse below). -/
def parse_messages_html (rows : List MsgRow) : List Item :=
  rows.filterMap fun row =>
    if ¬ row.unread then none
    else if row.cols.length < 6 then none
    else
      match row.link with
      | none => none
      | some (href, text) =>
        some { type := "message",
               id := "msg_" ++ last_segment href,
               sender := some (row.cols.headD ""),
               subject := some text,
               date := row.cols.getD 2 "",
               url := href }

/-- The sleep computation at the bottom of main (src/ptn.py lines
160-181). session_results carries the floats the gathered
fetch_notifications coroutines returned; main discards them (the gather
result is not bound), so the parameter is unused. check_interval is
CHECK_INTERVAL from config (none when float() raises, which
contextlib.suppress swallows); the sleep is that value when it exceeds
the hard-coded minimum of 900, otherwise 900. -/
def orchestrator_sleep (session_results : List ℚ) (check_interval : Option ℚ) : ℚ :=
  let minimum_interval : ℚ := 900
  match check_interval with
  | none => minimum_interval
  | some v => if v > minimum_interval then v else minimum_interval

/-- The sleep the specification describes for the orchestrator, stated
from the spec text: the minimum positive next-due interval collected
from the sessions, with a default fallback when no session reports a
positive interval. Used only to compare against orchestrator_sleep. -/
def spec_minimum_due (results : List ℚ) (fallback : ℚ) : ℚ :=
  match results.filter (fun r => 0 < r) with
  | [] => fallback
  | x :: xs => xs.foldl min x

/-!
Interleaving model of the global rate limiting in BaseTracker._fetch_page
(src/trackers/base.py lines 214-232). Each task runs the straight-line
program of one _fetch_page call, split at its await points into atomic
steps addressed by a program counter:

  0: acquire BaseTracker._request_lock (async with, line 214)
  1: holding the lock, read _last_request_time and, when less than
     delay has elapsed, sleep until lastRequestTime + delay (lines 215-221)
  2: release the lock (leaving the async with block)
  3: issue the HTTP GET (line 225) - the request start is recorded in
     the trace together with the current clock
  4: the response arrives; on failure jump to done (the except branches)
  5: acquire the lock again (line 231)
  6: write _last_request_time := now (line 232)
  7: release the lock
  8: done

A schedule is a list of actions: one atomic step of a chosen task, or a
clock advance (time passing during network waits). A step of a task
whose acquire cannot proceed, or that is already done, is a no-op.
-/

/-- Shared state of the rate limiter model: the lock owner, the
class-level _last_request_time, the monotonic clock, each task's program
counter, and the trace of request starts (task, time). -/
structure RLState where
  lock : Option Nat
  lastRequestTime : ℚ
  clock : ℚ
  pcs : List Nat
  trace : List (Nat × ℚ)
  deriving Repr, DecidableEq

/-- One scheduler action: run one atomic step of task i, or advance the
clock by d. -/
inductive RLAct where
  | step (i : Nat)
  | tick (d : ℚ)
  deriving Repr, DecidableEq

/-- Small-step semantics of the rate limiter model; succeeds tells
whether task i's GET returns normally (on failure no write to
_last_request_time happens, matching the except branches that skip the
second async with). A task index outside pcs reads as done (8). -/
def rl_step (delay : ℚ) (succeeds : Nat → Bool) (s : RLState) : RLAct → RLState
  | .tick d => { s with clock := s.clock + d }
  | .step i =>
    let pc := s.pcs.getD i 8
    if pc = 0 then
        if s.lock = none then { s with lock := some i, pcs := s.pcs.set i 1 }
        else s
    else if pc = 1 then
      if s.lock = some i then
        if s.clock - s.lastRequestTime < delay then
          { s with clock := s.lastRequestTime + delay, pcs := s.pcs.set i 2 }
        else { s with pcs := s.pcs.set i 2 }
      else s
    else if pc = 2 then
      if s.lock = some i then { s with lock := none, pcs := s.pcs.set i 3 }
      else s
    else if pc = 3 then
      { s with trace := s.trace ++ [(i, s.clock)], pcs := s.pcs.set i 4 }
    else if pc = 4 then
      if succeeds i then { s with pcs := s.pcs.set i 5 }
      else { s with pcs := s.pcs.set i 8 }
    else if pc = 5 then
      if s.lock = none then { s with lock := some i, pcs := s.pcs.set i 6 }
      else s
    else if pc = 6 then
      if s.lock = some i then { s with lastRequestTime := s.clock, pcs := s.pcs.set i 7 }
      else s
    else if pc = 7 then
      if s.lock = some i then { s with lock := none, pcs := s.pcs.set i 8 }
      else s
    else s

/-- Run a whole schedule from a state. -/
def rl_run (delay : ℚ) (succeeds : Nat → Bool) (s : RLState) (acts : List RLAct) : RLState :=
  acts.foldl (rl_step delay succeeds) s

/-! Concrete inputs used by the claim theorems. -/

/-- A concrete adapter item. -/
def item42 : Item := { type := "notification", id := "42", url := "https://x/42" }

/-- A second concrete adapter item. -/
def item43 : Item := { type := "notification", id := "43", url := "https://x/43" }

/-- Claim C1. The claim states that a session constructed with no state
file on disk never invokes a notifier sink during its first cycle, while
every returned item id is acked. The code violates the first half:
BaseTracker.__init__ line 47 executes self.first_run = False after
_load_state (line 46) already set the flag to True for a missing file,
so the flag the cycle consults is always False and the backlog item is
dispatched; the ack half does hold. This theorem evaluates the embedded
constructor and cycle on the failing input. -/
theorem first_run_flag_overwritten_dispatches :
    (init_session .missing).2 = false ∧
    (process [("telegram", fun _ => false)] (init_session .missing).2
        (init_session .missing).1 (.ok [item42]) 100).log = [("telegram", "42")] ∧
    "42" ∈ (process [("telegram", fun _ => false)] (init_session .missing).2
        (init_session .missing).1 (.ok [item42]) 100).state.processed_ids := by
  decide

/-- Claim C3. The claim states that a fetch failure leaves last_run
unchanged. BaseTracker._fetch_page catches every request exception and
returns the empty string instead of raising (contradicting its own
docstring, which announces raising RequestError), the empty page parses
to no rows hence no items, and BaseTracker.process then completes the
cycle normally: last_run is advanced from 10 to 50 and no error is
recorded, although no work happened. -/
theorem fetch_failure_completes_cycle :
    fetch_page .timeout "general-settings" = "" ∧
    fetch_page (.statusError 500) "" = "" ∧
    fetch_page .requestError "" = "" ∧
    parse_messages_html [] = [] ∧
    (process [("telegram", fun _ => false)] false ⟨["a"], 10⟩ (.ok []) 50).state
      = ⟨["a"], 50⟩ ∧
    (process [("telegram", fun _ => false)] false ⟨["a"], 10⟩ (.ok []) 50).errorCaught
      = false := by
  decide

/-- Claim C4. Starting from any processed_ids within the documented
bound, _ack_item keeps the list within 300 entries, and an append keeps
exactly the most recent min(n+1, 300) entries of the appended list:
the survivors are a suffix of the old list followed by the new id, so
the oldest-inserted ids are the ones evicted and FIFO order is kept. -/
theorem ack_ids_bounded_fifo (ids : List String) (item_id : String)
    (hlen : ids.length ≤ 300) :
    (ack_ids ids item_id).length ≤ 300 ∧
    (item_id ∉ ids →
      ack_ids ids item_id = (ids ++ [item_id]).drop (ids.length + 1 - 300)) := by
  unfold ack_ids
  have hlen2 : (ids ++ [item_id]).length = ids.length + 1 := by
    simp [List.length_append]
  by_cases hm : item_id ∈ ids
  · rw [if_pos hm]
    exact ⟨hlen, fun h => absurd hm h⟩
  · rw [if_neg hm]
    by_cases hlong : (ids ++ [item_id]).length > 300
    · rw [if_pos hlong]
      constructor
      · rw [List.length_drop]
        omega
      · intro _
        rw [hlen2]
    · rw [if_neg hlong]
      constructor
      · omega
      · intro _
        have h0 : ids.length + 1 - 300 = 0 := by omega
        rw [h0, List.drop_zero]

/-- Witness for ack_ids_bounded_fifo at a concrete input. -/
theorem ack_ids_bounded_fifo_witness :
    (ack_ids ["a"] "b").length ≤ 300 :=
  (ack_ids_bounded_fifo ["a"] "b" (by decide)).1

/-- Claim C9. get_scrape_interval is exactly the maximum of the
requested interval and the configured global minimum; in particular 900
against 1800 yields 1800 and 3600 against 1800 yields 3600. -/
theorem get_scrape_interval_is_max :
    ∀ r g : ℚ, get_scrape_interval r g = max r g ∧
      get_scrape_interval 900 1800 = 1800 ∧
      get_scrape_interval 3600 1800 = 3600 := by
  intro r g
  refine ⟨?_, by norm_num [get_scrape_interval], by norm_num [get_scrape_interval]⟩
  unfold get_scrape_interval
  by_cases h : r ≥ g
  · rw [if_pos h, max_eq_left h]
  · rw [if_neg h, max_eq_right (le_of_not_le h)]

/-- Claim C10. Acking an item whose id is already a member of
processed_ids leaves the whole session state unchanged: no duplicate is
appended and no eviction occurs. -/
theorem ack_item_idempotent (st : SessionState) (item : Item)
    (h : item.id ∈ st.processed_ids) : ack_item st item = st := by
  simp [ack_item, ack_ids, h]

/-- Witness for ack_item_idempotent at a concrete input. -/
theorem ack_item_idempotent_witness :
    ack_item ⟨["42"], 0⟩ item42 = ⟨["42"], 0⟩ :=
  ack_item_idempotent ⟨["42"], 0⟩ item42 (by decide)

/-- Start state for the overlapping-request schedule: the lock is free,
no request was ever recorded (lastRequestTime 0) and the clock reads 10,
with two tasks about to enter _fetch_page. -/
def rl_demo_start : RLState :=
  { lock := none, lastRequestTime := 0, clock := 10, pcs := [0, 0], trace := [] }

/-- Schedule: task 0 acquires, passes the gate without sleeping (10
units elapsed, delay 5) and releases; task 1 does the same before task
0's GET completes; then both GETs start. -/
def rl_demo_schedule : List RLAct :=
  [.step 0, .step 0, .step 0, .step 1, .step 1, .step 1, .step 0, .step 1]

/-- Claim C5, counterexample. The claim states no two outbound requests
process-wide are spaced closer than minDelay. Because _fetch_page writes
_last_request_time only after its response arrives (second async with,
line 231-232), a second task can pass the gate while the first request
is still in flight: under this schedule both request starts carry clock
10, zero apart, with delay 5. -/
theorem rate_limit_overlapping_requests :
    (rl_run 5 (fun _ => true) rl_demo_start rl_demo_schedule).trace
      = [(0, 10), (1, 10)] ∧ ((10 : ℚ) - 10 < 5) := by
  constructor
  · norm_num [rl_run, rl_demo_start, rl_demo_schedule, rl_step]
  · norm_num

/-- Claim C5, amended. What the gate does guarantee: a task at the wait
step holding the lock resumes only once at least delay has elapsed since
the recorded lastRequestTime (which the wait step never changes), and
the write step records the current clock as lastRequestTime; the
recording happens after the response rather than at gate release, which
is why request starts themselves are not spaced. -/
theorem rl_gate_waits_and_records_after_response (delay : ℚ)
    (succeeds : Nat → Bool) (s : RLState) (i : Nat) :
    (s.pcs.getD i 8 = 1 → s.lock = some i →
      delay ≤ (rl_step delay succeeds s (.step i)).clock
              - (rl_step delay succeeds s (.step i)).lastRequestTime) ∧
    (s.pcs.getD i 8 = 6 → s.lock = some i →
      (rl_step delay succeeds s (.step i)).lastRequestTime = s.clock) := by
  constructor
  · intro hpc hlock
    have hpc2 : s.pcs[i]?.getD 8 = 1 := by simpa [List.getD] using hpc
    by_cases hs : s.clock - s.lastRequestTime < delay
    · simp [rl_step, hpc2, hlock, hs]
    · simp [rl_step, hpc2, hlock, hs]
      linarith [not_lt.mp hs]
  · intro hpc hlock
    have hpc2 : s.pcs[i]?.getD 8 = 6 := by simpa [List.getD] using hpc
    simp [rl_step, hpc2, hlock]

/-- Concrete state for the gate witness: one task at the wait step,
holding the lock, with no time elapsed since the recorded request. -/
def rl_gate_state : RLState :=
  { lock := some 0, lastRequestTime := 7, clock := 7, pcs := [1], trace := [] }

/-- Witness for rl_gate_waits_and_records_after_response at a concrete
input. -/
theorem rl_gate_waits_witness :
    (5 : ℚ) ≤ (rl_step 5 (fun _ => true) rl_gate_state (.step 0)).clock
              - (rl_step 5 (fun _ => true) rl_gate_state (.step 0)).lastRequestTime :=
  (rl_gate_waits_and_records_after_response 5 (fun _ => true) rl_gate_state 0).1
    (by decide) (by decide)

/-- Claim C6, counterexample. The claim states the orchestrator sleeps
for the minimum positive interval collected from the sessions. With a
session reporting it is due again in 30 seconds and CHECK_INTERVAL
unset, the code sleeps 900 while the collected minimum is 30. -/
theorem orchestrator_sleep_ignores_sessions :
    orchestrator_sleep [30] none = 900 ∧
    spec_minimum_due [30] 60 = 30 ∧
    orchestrator_sleep [30] none ≠ spec_minimum_due [30] 60 := by
  decide

/-- Claim C6, amended. The sleep duration is computed from configuration
alone: the results of the gathered fetch_notifications calls do not
influence it (main never binds the gather result), and the duration is
CHECK_INTERVAL when that value exceeds the hard-coded 900-second
minimum, otherwise 900 (also when CHECK_INTERVAL is missing or fails to
parse). -/
theorem orchestrator_sleep_config_only :
    ∀ (res₁ res₂ : List ℚ) (ci : Option ℚ) (v : ℚ),
      orchestrator_sleep res₁ ci = orchestrator_sleep res₂ ci ∧
      orchestrator_sleep res₁ (some v) = max v 900 ∧
      orchestrator_sleep res₁ none = 900 := by
  intro res₁ res₂ ci v
  refine ⟨rfl, ?_, rfl⟩
  by_cases h : v > 900
  · rw [max_eq_left (le_of_lt h)]
    simp [orchestrator_sleep, h]
  · rw [max_eq_right (not_lt.mp h)]
    simp [orchestrator_sleep, h]

/-- dispatch_item on sinks none of which raises on the item: every sink
is invoked in list order and no exception escapes. -/
theorem dispatch_item_ok (sinks : List Sink) (item : Item)
    (h : ∀ s ∈ sinks, s.2 item = false) :
    dispatch_item sinks item = (sinks.map fun s => (s.1, item.id), false) := by
  induction sinks with
  | nil => rfl
  | cons s rest ih =>
    have hs : s.2 item = false := h s (by simp)
    have hr := ih (fun x hx => h x (by simp [hx]))
    simp [dispatch_item, hs, hr]

/-- dispatch_item when the first raising sink sits after a prefix of
non-raising sinks: the prefix and the raising sink are invoked, the
sinks after it are not, and the exception escapes. -/
theorem dispatch_item_raises (pre : List Sink) (nm : String) (f : Item → Bool)
    (post : List Sink) (item : Item) (hf : f item = true)
    (hpre : ∀ s ∈ pre, s.2 item = false) :
    dispatch_item (pre ++ (nm, f) :: post) item
      = (pre.map (fun s => (s.1, item.id)) ++ [(nm, item.id)], true) := by
  induction pre with
  | nil => simp [dispatch_item, hf]
  | cons s rest ih =>
    have hs : s.2 item = false := hpre s (by simp)
    have hr := ih (fun x hx => hpre x (by simp [hx]))
    simp [dispatch_item, hs, hr]

/-- process_items when no sink raises on any item: the log is one
invocation per sink per item, items outermost, and no exception
escapes. -/
theorem process_items_ok (sinks : List Sink) (ids : List String)
    (items : List Item)
    (h : ∀ s ∈ sinks, ∀ it ∈ items, s.2 it = false) :
    (process_items sinks false ids items).2
      = (items.flatMap fun it => sinks.map fun s => (s.1, it.id), false) := by
  induction items generalizing ids with
  | nil => rfl
  | cons it rest ih =>
    have hd := dispatch_item_ok sinks it (fun s hs => h s hs it (by simp))
    have hr := ih (ack_ids ids it.id) (fun s hs it2 h2 => h s hs it2 (by simp [h2]))
    simp [process_items, hd, hr]

/-- Claim C7, counterexample. The claim states a failure raised by one
sink does not prevent the remaining sinks nor abort the cycle. In
BaseTracker.process there is no try/except around the notifier await:
with telegram raising on the first item, discord is never invoked for
it, the item is not acked, the second item is never visited and
last_run stays 0. -/
theorem sink_failure_aborts_cycle :
    process [("telegram", fun _ => true), ("discord", fun _ => false)] false
        ⟨[], 0⟩ (.ok [item42, item43]) 100
      = ⟨⟨[], 0⟩, [("telegram", "42")], true⟩ := by
  decide

/-- Claim C7, amended. Sinks are invoked in configuration order
(telegram appended before discord when both are configured) and, when no
sink raises, each configured sink runs for each item; but an exception
actually raised by a sink propagates to the cycle boundary: the sinks
after it and all remaining items are skipped, the failing item is not
acked, and last_run is not advanced (the exception is caught at the
session boundary, so it still does not escape the session). -/
theorem process_sink_order_and_abort :
    ∀ (sinks : List Sink) (st : SessionState) (items : List Item) (now : ℚ),
      ((∀ s ∈ sinks, ∀ it ∈ items, s.2 it = false) →
        (process sinks false st (.ok items) now).log
          = items.flatMap fun it => sinks.map fun s => (s.1, it.id)) ∧
      (∀ (pre : List Sink) (nm : String) (f : Item → Bool) (post : List Sink)
          (it : Item) (rest : List Item),
        sinks = pre ++ (nm, f) :: post → f it = true →
        (∀ s ∈ pre, s.2 it = false) → items = it :: rest →
        process sinks false st (.ok items) now
          = ⟨st, pre.map (fun s => (s.1, it.id)) ++ [(nm, it.id)], true⟩) ∧
      build_notifiers true true = ["telegram", "discord"] := by
  intro sinks st items now
  refine ⟨?_, ?_, rfl⟩
  · intro h
    have hp := process_items_ok sinks st.processed_ids items h
    simp [process, hp]
  · intro pre nm f post it rest hsinks hf hpre hitems
    subst hsinks
    subst hitems
    have hd := dispatch_item_raises pre nm f post it hf hpre
    simp [process, process_items, hd]

/-- Witness for process_sink_order_and_abort at a concrete input: one
non-raising telegram sink and one item give exactly one invocation. -/
theorem process_sink_order_and_abort_witness :
    (process [("telegram", fun _ => false)] false ⟨[], 0⟩ (.ok [item42]) 100).log
      = [item42].flatMap fun it =>
          [(("telegram" : String), fun (_ : Item) => false)].map fun s => (s.1, it.id) :=
  (process_sink_order_and_abort [("telegram", fun _ => false)] ⟨[], 0⟩
    [item42] 100).1 (by intro s hs it hit; simp at hs; simp [hs])

/-- process that ends with no caught error sets last_run to the time
read at the end of the cycle. -/
theorem process_success_last_run (sinks : List Sink) (first_run : Bool)
    (st : SessionState) (fetched : Except String (List Item)) (now : ℚ)
    (h : (process sinks first_run st fetched now).errorCaught = false) :
    (process sinks first_run st fetched now).state.last_run = now := by
  match fetched with
  | .error e => simp [process] at h
  | .ok items =>
    simp only [process] at h ⊢
    by_cases hr : (process_items sinks first_run st.processed_ids items).2.2
    · rw [if_pos hr] at h
      simp at h
    · rw [if_neg hr] at h ⊢

/-- Claim C8. fetch_notifications runs a cycle and returns the policy
interval exactly when now - last_run is at least the interval; otherwise
it runs nothing and returns the remaining time until due, which is
strictly positive; and after a cycle that completes without a caught
error, last_run is the cycle-end time, so the session is not due again
before the interval elapses. -/
theorem fetch_notifications_due_spec :
    ∀ (sinks : List Sink) (fetched : Except String (List Item))
      (st : SessionState) (interval now now2 : ℚ) (r : FetchOutcome),
      r = fetch_notifications sinks false fetched st interval now now2 →
      ((r.ran = true ↔ now - st.last_run ≥ interval) ∧
       (¬ now - st.last_run ≥ interval →
         r.ret = st.last_run + interval - now ∧ 0 < r.ret) ∧
       (now - st.last_run ≥ interval → r.ret = interval) ∧
       (now - st.last_run ≥ interval →
         (process sinks false st fetched now2).errorCaught = false →
         r.state.last_run = now2 ∧
         ∀ (sinks2 : List Sink) (f2 : Except String (List Item)) (t t2 : ℚ),
           t - now2 < interval →
           (fetch_notifications sinks2 false f2 r.state interval t t2).ran
             = false)) := by
  intro sinks fetched st interval now now2 r hr
  subst hr
  by_cases h : now - st.last_run ≥ interval
  · have hdue : fetch_notifications sinks false fetched st interval now now2
        = ⟨(process sinks false st fetched now2).state, interval, true,
           (process sinks false st fetched now2).log⟩ := by
      simp [fetch_notifications, h]
    constructor
    · simp [hdue, h]
    constructor
    · intro hc
      exact absurd h hc
    constructor
    · intro _
      simp [hdue]
    · intro _ hok
      have hlast : (process sinks false st fetched now2).state.last_run = now2 :=
        process_success_last_run sinks false st fetched now2 hok
      constructor
      · simp [hdue, hlast]
      · intro sinks2 f2 t t2 ht
        set st2 := (fetch_notifications sinks false fetched st
          interval now now2).state with hst2
        have hnot : ¬ t - st2.last_run ≥ interval := by
          rw [hst2, hdue]
          simp only [hlast]
          exact not_le.mpr ht
        simp [fetch_notifications, hnot]
  · have hret : fetch_notifications sinks false fetched st interval now now2
        = ⟨st, st.last_run + interval - now, false, []⟩ := by
      simp [fetch_notifications, h]
    constructor
    · simp [hret, h]
    constructor
    · intro _
      have hx := not_le.mp h
      refine ⟨by simp [hret], ?_⟩
      rw [hret]
      show 0 < st.last_run + interval - now
      linarith
    constructor
    · intro hc
      exact absurd hc h
    · intro hc
      exact absurd hc h

/-- Witness for fetch_notifications_due_spec at a concrete input: a
session last run at 0 with interval 10 is due at time 20. -/
theorem fetch_notifications_due_spec_witness :
    (fetch_notifications [] false (.ok []) ⟨[], 0⟩ 10 20 25).ran = true :=
  ((fetch_notifications_due_spec [] (.ok []) ⟨[], 0⟩ 10 20 25 _ rfl).1).mpr
    (by norm_num)

end PTNotifier
